import Mathlib

/-
Verification development for the short-video analytics dashboard.

The metrics engine lives in src/src/data_processor.py (class DataProcessor)
and the ranking computation in src/src/dashboard.py
(VideoAnalyticsDashboard.display_video_ranking).  The definitions below are a
shallow embedding of that code: pandas column arithmetic becomes arithmetic
over lists of records, numpy floating-point values are modelled by the
three-valued type PyFloat (finite rational, +inf, NaN), and the engine's
mutable `self.df` becomes an explicit Engine state threaded through the
operations.
-/

set_option allowUnsafeReducibility true in
attribute [semireducible] Rat.add Rat.mul Rat.sub Rat.inv Rat.ofScientific

/-- Model of a Python/numpy floating-point value as produced by this
repository's arithmetic: a finite rational, positive infinity, or NaN.
Negative infinity never arises here because every numerator the source
divides is a sum of non-negative counts. -/
inductive PyFloat where
  | num (q : ℚ)
  | inf
  | nan
deriving DecidableEq

/-- True exactly on finite values. -/
def PyFloat.isNum : PyFloat → Bool
  | .num _ => true
  | _ => false

/-- True exactly on NaN. -/
def PyFloat.isNan : PyFloat → Bool
  | .nan => true
  | _ => false

/-- The finite value carried by a PyFloat; 0 on inf/NaN (only ever used
under an isNum hypothesis). -/
def PyFloat.numVal : PyFloat → ℚ
  | .num q => q
  | _ => 0

/-- numpy float division of a non-negative numerator by a possibly-zero
denominator: a/0 is +inf for a > 0 and NaN for a = 0; no exception is
raised (the source has no zero-guard around its divisions). -/
def pyDiv (a b : ℚ) : PyFloat :=
  if b = 0 then (if a = 0 then .nan else .inf) else .num (a / b)

/-- Multiplication by the positive finite constants used in the source
(100, 0.4): inf and NaN are absorbing. -/
def PyFloat.mulQ : PyFloat → ℚ → PyFloat
  | .num q, c => .num (q * c)
  | .inf, _ => .inf
  | .nan, _ => .nan

/-- Addition of a finite value: inf and NaN are absorbing. -/
def PyFloat.addQ : PyFloat → ℚ → PyFloat
  | .num q, c => .num (q + c)
  | .inf, _ => .inf
  | .nan, _ => .nan

/-- x > c for a finite threshold c (IEEE semantics: inf > c is true,
NaN > c is false). -/
def PyFloat.gtQ : PyFloat → ℚ → Bool
  | .num q, c => decide (c < q)
  | .inf, _ => true
  | .nan, _ => false

/-- Strict greater-than between two values; false whenever either operand
is NaN (IEEE comparison semantics). -/
def PyFloat.gtF : PyFloat → PyFloat → Bool
  | .num a, .num b => decide (b < a)
  | .inf, .num _ => true
  | _, _ => false

/-- Round to the nearest integer, ties to even — numpy's default rounding,
used by `.round(2)` throughout the source. -/
def roundHalfEven (x : ℚ) : ℤ :=
  if x - ⌊x⌋ < 1/2 then ⌊x⌋
  else if 1/2 < x - ⌊x⌋ then ⌊x⌋ + 1
  else if ⌊x⌋ % 2 = 0 then ⌊x⌋ else ⌊x⌋ + 1

/-- numpy round(x, 2): round to 2 decimal places, ties to even. -/
def round2 (x : ℚ) : ℚ := (roundHalfEven (x * 100) : ℚ) / 100

/-- `.round(2)` lifted to PyFloat: rounding a non-finite value keeps it. -/
def PyFloat.round2F : PyFloat → PyFloat
  | .num q => .num (round2 q)
  | .inf => .inf
  | .nan => .nan

/-- pandas Series.mean with the default skipna=True: NaN entries are
ignored, an infinite entry makes the mean infinite, and the mean over no
(non-NaN) entries is NaN. -/
def pymean (l : List PyFloat) : PyFloat :=
  let nn := l.filter (fun x => !x.isNan)
  if nn.isEmpty then .nan
  else if nn.any (fun x => decide (x = .inf)) then .inf
  else .num ((nn.map PyFloat.numVal).sum / (nn.length : ℚ))

/-- A parsed upload_time value (the source stores pandas Timestamps; only
the wall-clock fields matter to the engine, and only `hour` is ever read). -/
structure Timestamp where
  year : ℕ
  month : ℕ
  day : ℕ
  hour : ℕ
  minute : ℕ
  second : ℕ
deriving DecidableEq

/-- Numeric value of a digit character. -/
def digitVal (c : Char) : ℕ := c.toNat - 48

/-- Model of pd.to_datetime on one cell for the input schema's
`YYYY-MM-DD HH:MM:SS` format: none when the string is not a timestamp of
that shape (the to_datetime call then raises, which load_data catches). -/
def parseTimestamp (s : String) : Option Timestamp :=
  match s.data with
  | [y1, y2, y3, y4, c1, m1, m2, c2, d1, d2, c3, h1, h2, c4, n1, n2, c5, s1, s2] =>
    if (c1 = '-' ∧ c2 = '-' ∧ c3 = ' ' ∧ c4 = ':' ∧ c5 = ':') ∧
        ([y1, y2, y3, y4, m1, m2, d1, d2, h1, h2, n1, n2, s1, s2].all Char.isDigit) = true then
      let mo := digitVal m1 * 10 + digitVal m2
      let dy := digitVal d1 * 10 + digitVal d2
      let hr := digitVal h1 * 10 + digitVal h2
      let mi := digitVal n1 * 10 + digitVal n2
      let se := digitVal s1 * 10 + digitVal s2
      if 1 ≤ mo ∧ mo ≤ 12 ∧ 1 ≤ dy ∧ dy ≤ 31 ∧ hr ≤ 23 ∧ mi ≤ 59 ∧ se ≤ 59 then
        some ⟨digitVal y1 * 1000 + digitVal y2 * 100 + digitVal y3 * 10 + digitVal y4,
              mo, dy, hr, mi, se⟩
      else none
    else none
  | _ => none

/-- One row of the CSV as read by pd.read_csv, upload_time still a string. -/
structure RawRecord where
  video_id : String
  upload_time : String
  content_type : String
  duration_sec : ℕ
  views : ℕ
  likes : ℕ
  comments : ℕ
  shares : ℕ
  completion_rate : ℚ
  creator_id : String
deriving DecidableEq

/-- One row after the upload_time column has been parsed by pd.to_datetime. -/
structure VideoRecord where
  video_id : String
  upload_time : Timestamp
  content_type : String
  duration_sec : ℕ
  views : ℕ
  likes : ℕ
  comments : ℕ
  shares : ℕ
  completion_rate : ℚ
  creator_id : String
deriving DecidableEq

/-- Parse the upload_time cell of one raw row. -/
def parse_record (r : RawRecord) : Option VideoRecord :=
  (parseTimestamp r.upload_time).map (fun ts =>
    { video_id := r.video_id
      upload_time := ts
      content_type := r.content_type
      duration_sec := r.duration_sec
      views := r.views
      likes := r.likes
      comments := r.comments
      shares := r.shares
      completion_rate := r.completion_rate
      creator_id := r.creator_id })

/-- Model of `pd.to_datetime(self.df['upload_time'])`: the whole column is
converted, failing (raising) if any cell fails. -/
def parse_times (t : List RawRecord) : Option (List VideoRecord) :=
  t.mapM parse_record

/-- DataProcessor._categorize_time_period: the five fixed time-of-day
buckets, keyed on the upload hour. -/
def categorize_time_period (hour : ℕ) : String :=
  if 6 ≤ hour ∧ hour < 12 then "早晨 (6-12)"
  else if 12 ≤ hour ∧ hour < 14 then "中午 (12-14)"
  else if 14 ≤ hour ∧ hour < 18 then "下午 (14-18)"
  else if 18 ≤ hour ∧ hour < 22 then "晚上 (18-22)"
  else "深夜 (22-6)"

/-- A VideoRecord together with the four fields DataProcessor.calculate_metrics
adds to the copied dataframe. -/
structure DerivedRecord where
  video_id : String
  upload_time : Timestamp
  content_type : String
  duration_sec : ℕ
  views : ℕ
  likes : ℕ
  comments : ℕ
  shares : ℕ
  completion_rate : ℚ
  creator_id : String
  engagement_rate : PyFloat
  is_hot : Bool
  upload_hour : ℕ
  time_period : String
deriving DecidableEq

/-- The per-row computation of DataProcessor.calculate_metrics:
engagement_rate = ((likes + comments + shares) / views * 100).round(2),
is_hot = (engagement_rate > 5) & (views > 20000),
upload_hour = upload_time.dt.hour, time_period from the hour. -/
def derive_record (r : VideoRecord) : DerivedRecord :=
  let er := ((pyDiv ((r.likes : ℚ) + (r.comments : ℚ) + (r.shares : ℚ)) (r.views : ℚ)).mulQ 100).round2F
  { video_id := r.video_id
    upload_time := r.upload_time
    content_type := r.content_type
    duration_sec := r.duration_sec
    views := r.views
    likes := r.likes
    comments := r.comments
    shares := r.shares
    completion_rate := r.completion_rate
    creator_id := r.creator_id
    engagement_rate := er
    is_hot := er.gtQ 5 && decide (20000 < r.views)
    upload_hour := r.upload_time.hour
    time_period := categorize_time_period r.upload_time.hour }

/-- Column-wise view of calculate_metrics on the copied table. -/
def derive_table (t : List VideoRecord) : List DerivedRecord :=
  t.map derive_record

/-- The value stored in `self.df`: after a fully successful load it holds the
parsed table; after `self.df = pd.read_csv(...)` succeeded but the
to_datetime conversion raised, it still holds the raw table. -/
inductive StoredDF where
  | raw (t : List RawRecord)
  | parsed (t : List VideoRecord)
deriving DecidableEq

/-- The DataProcessor object: `self.data_path` and `self.df` (None until a
read succeeds). -/
structure Engine where
  data_path : String
  df : Option StoredDF
deriving DecidableEq

/-- Outcome of pd.read_csv on the engine's path: an I/O error (missing or
unreadable file) or the raw table. -/
inductive ReadResult where
  | ioError (msg : String)
  | table (t : List RawRecord)

/-- DataProcessor.load_data.  The source runs
`self.df = pd.read_csv(self.data_path)` and then
`self.df['upload_time'] = pd.to_datetime(self.df['upload_time'])` inside one
try/except that returns False on any exception.  Hence: a read error leaves
`self.df` untouched; a timestamp-parse error happens after `self.df` was
already reassigned, leaving the raw table stored; only full success stores
the parsed table.  No branch resets `self.df` to None. -/
def load_data (e : Engine) (r : ReadResult) : Engine × Bool :=
  match r with
  | .ioError _ => (e, false)
  | .table t =>
    match parse_times t with
    | none => ({ e with df := some (.raw t) }, false)
    | some pt => ({ e with df := some (.parsed pt) }, true)

/-- Result of calling a Python method: a raised exception or a value. -/
inductive PyResult (α : Type) where
  | raised (msg : String)
  | val (a : α)
deriving DecidableEq

/-- DataProcessor.calculate_metrics as a whole: returns None when self.df is
None; raises when self.df holds the raw table (the `.dt` accessor on a
non-datetime column raises); otherwise derives the four columns on a copy
of the stored table. -/
def calculate_metrics (e : Engine) : PyResult (Option (List DerivedRecord)) :=
  match e.df with
  | none => .val none
  | some (.raw _) => .raised "AttributeError"
  | some (.parsed t) => .val (some (derive_table t))

/-- calculate_metrics viewed as a state transformer on the engine: the method
reads `self.df`, copies it, and never assigns any attribute of self. -/
def calc_metrics_step (e : Engine) : Engine × PyResult (Option (List DerivedRecord)) :=
  (e, calculate_metrics e)

/-- Insert an element into a descending-ordered list, keeping it before every
later element whose key is not strictly greater: the inserted element (which
comes earlier in the original list) precedes elements of equal key. -/
def insertDesc {α : Type} (key : α → PyFloat) (x : α) : List α → List α
  | [] => [x]
  | y :: ys => if (key y).gtF (key x) then y :: insertDesc key x ys else x :: y :: ys

/-- Stable insertion sort, descending by key. -/
def insertSortDesc {α : Type} (key : α → PyFloat) : List α → List α
  | [] => []
  | x :: xs => insertDesc key x (insertSortDesc key xs)

/-- pandas sort_values(col, ascending=False) with the source's defaults
kind='quicksort' and na_position='last': rows with a NaN key go last, the
rest are ordered by key descending.  The order among rows with EQUAL keys is
not guaranteed by pandas for this kind (only mergesort/stable are documented
stable), so the program fixes no tie order; an executable model must pick
one, and this one picks the stable order — what numpy's quicksort kernel
happens to produce in its small-array insertion-sort regime.  No theorem
below depends on the tie order this definition picks: the two analyses are
consumed only through row membership, which every descending sort produces
identically. -/
def sort_values_desc {α : Type} (key : α → PyFloat) (l : List α) : List α :=
  insertSortDesc key (l.filter (fun a => !(key a).isNan)) ++
    l.filter (fun a => (key a).isNan)

/-- Insert a string into an ascending-ordered list of keys. -/
def insertKeyAsc (x : String) : List String → List String
  | [] => [x]
  | y :: ys => if y < x then y :: insertKeyAsc x ys else x :: y :: ys

/-- Sort group keys ascending — pandas groupby(sort=True), the default,
iterates groups in ascending key order. -/
def sortKeysAsc : List String → List String
  | [] => []
  | x :: xs => insertKeyAsc x (sortKeysAsc xs)

/-- The distinct group keys of a dataframe under a key column, in the order
pandas groupby iterates them (ascending). -/
def group_keys (df : List DerivedRecord) (key : DerivedRecord → String) : List String :=
  sortKeysAsc (df.map key).dedup

/-- One row of the content_stats table built by
DataProcessor.get_content_type_analysis: per content_type group, mean views
and mean engagement_rate rounded to 2 decimals, the record count, the hot
count, and hot_rate = hot/count*100 rounded to 2 decimals. -/
structure ContentStat where
  content_type : String
  views : ℚ
  engagement_rate : PyFloat
  video_count : ℕ
  hot_videos : ℕ
  hot_rate : PyFloat
deriving DecidableEq

/-- The aggregation get_content_type_analysis performs for one group key.
Groups coming from groupby are nonempty, so the zero-length branches
(rational division by zero for the views mean, NaN for hot_rate, matching
numpy's 0/0) are unreachable. -/
def content_row (df : List DerivedRecord) (k : String) : ContentStat :=
  let g := df.filter (fun d => decide (d.content_type = k))
  { content_type := k
    views := round2 ((g.map (fun d => (d.views : ℚ))).sum / (g.length : ℚ))
    engagement_rate := (pymean (g.map (fun d => d.engagement_rate))).round2F
    video_count := g.length
    hot_videos := g.countP (fun d => d.is_hot)
    hot_rate := if g.length = 0 then .nan
      else .num (round2 ((g.countP (fun d => d.is_hot) : ℚ) / (g.length : ℚ) * 100)) }

/-- The content_stats rows in groupby iteration order, before sorting. -/
def content_rows (df : List DerivedRecord) : List ContentStat :=
  (group_keys df (fun d => d.content_type)).map (content_row df)

/-- DataProcessor.get_content_type_analysis: group by content_type,
aggregate, then sort_values('engagement_rate', ascending=False). -/
def get_content_type_analysis (df : List DerivedRecord) : List ContentStat :=
  sort_values_desc (fun r => r.engagement_rate) (content_rows df)

/-- One row of the time_stats table built by
DataProcessor.get_time_period_analysis: per time_period group it aggregates
only mean views, mean engagement_rate (both rounded to 2 decimals) and the
record count — unlike the content-type analysis there is no is_hot
aggregation and no hot_rate column. -/
structure TimeStat where
  time_period : String
  views : ℚ
  engagement_rate : PyFloat
  video_count : ℕ
deriving DecidableEq

/-- The aggregation get_time_period_analysis performs for one group key. -/
def time_row (df : List DerivedRecord) (k : String) : TimeStat :=
  let g := df.filter (fun d => decide (d.time_period = k))
  { time_period := k
    views := round2 ((g.map (fun d => (d.views : ℚ))).sum / (g.length : ℚ))
    engagement_rate := (pymean (g.map (fun d => d.engagement_rate))).round2F
    video_count := g.length }

/-- The time_stats rows in groupby iteration order, before sorting. -/
def time_rows (df : List DerivedRecord) : List TimeStat :=
  (group_keys df (fun d => d.time_period)).map (time_row df)

/-- DataProcessor.get_time_period_analysis: group by time_period, aggregate
views/engagement_rate/count, then sort_values('engagement_rate',
ascending=False). -/
def get_time_period_analysis (df : List DerivedRecord) : List TimeStat :=
  sort_values_desc (fun r => r.engagement_rate) (time_rows df)

/-- The dictionary returned by DataProcessor.get_summary_metrics. -/
structure SummaryMetrics where
  total_videos : ℕ
  total_views : ℕ
  avg_engagement_rate : PyFloat
  hot_videos_count : ℕ
  hot_videos_rate : PyFloat
deriving DecidableEq

/-- DataProcessor.get_summary_metrics: len(df), views sum, the mean of the
engagement_rate column (NOT rounded — the source applies no .round to it),
the is_hot count, and (hot/total*100).round(2), which is NaN (0/0) on an
empty dataframe. -/
def get_summary_metrics (df : List DerivedRecord) : SummaryMetrics :=
  { total_videos := df.length
    total_views := (df.map (fun d => d.views)).sum
    avg_engagement_rate := pymean (df.map (fun d => d.engagement_rate))
    hot_videos_count := df.countP (fun d => d.is_hot)
    hot_videos_rate := if df.length = 0 then .nan
      else .num (round2 ((df.countP (fun d => d.is_hot) : ℚ) / (df.length : ℚ) * 100)) }

/-- The composite score column computed by
VideoAnalyticsDashboard.display_video_ranking:
engagement_rate*0.4 + (views/1000)*0.3 + completion_rate*100*0.3. -/
def composite_score (d : DerivedRecord) : PyFloat :=
  (d.engagement_rate.mulQ (4/10)).addQ
    ((d.views : ℚ) / 1000 * (3/10) + d.completion_rate * 100 * (3/10))

/-- pandas DataFrame.nlargest(n, col) with the default keep='first': the
first n rows in descending key order, ties kept in original row order, rows
with a NaN key never selected. -/
def nlargest {α : Type} (n : ℕ) (key : α → PyFloat) (l : List α) : List α :=
  (insertSortDesc key (l.filter (fun a => !(key a).isNan))).take n

/-- The ranking display_video_ranking computes before column selection:
score every row on a copy of the dataframe, then nlargest(n, score).  The
source calls this with n = 10. -/
def rank_videos (df : List DerivedRecord) (n : ℕ) : List DerivedRecord :=
  nlargest n composite_score df

/-- The display columns display_video_ranking selects from a ranked row. -/
structure RankRow where
  video_id : String
  content_type : String
  views : ℕ
  engagement_rate : PyFloat
  completion_rate : ℚ
  composite_score : PyFloat
  upload_time : Timestamp
deriving DecidableEq

/-- Column selection of one ranked row. -/
def rank_row (d : DerivedRecord) : RankRow :=
  { video_id := d.video_id
    content_type := d.content_type
    views := d.views
    engagement_rate := d.engagement_rate
    completion_rate := d.completion_rate
    composite_score := composite_score d
    upload_time := d.upload_time }

/-- top_videos of display_video_ranking: nlargest(10, composite_score)
followed by the display column selection. -/
def top_videos (df : List DerivedRecord) : List RankRow :=
  (rank_videos df 10).map rank_row

/-- The query operations the presentation layer calls after load.  Each
carries the dataframe argument it is given (calculate_metrics takes none and
reads self.df). -/
inductive QueryOp where
  | calcMetrics
  | summary (df : List DerivedRecord)
  | contentAnalysis (df : List DerivedRecord)
  | timeAnalysis (df : List DerivedRecord)
  | ranking (df : List DerivedRecord)

/-- The engine-state effect of one query call, read off the source:
calculate_metrics copies self.df and assigns only to the copy
(data_processor.py line 27); get_summary_metrics, get_content_type_analysis,
get_time_period_analysis read their df argument only; display_video_ranking
copies its argument (dashboard.py line 153).  No query assigns self.df. -/
def run_query (e : Engine) (op : QueryOp) : Engine :=
  match op with
  | .calcMetrics => e
  | .summary _ => e
  | .contentAnalysis _ => e
  | .timeAnalysis _ => e
  | .ranking _ => e

/-- The rows of one time_period group of a dataframe. -/
def time_group (df : List DerivedRecord) (p : String) : List DerivedRecord :=
  df.filter (fun d => decide (d.time_period = p))

/-- Build a concrete parsed record (schema of §6 of the data model). -/
def mkVR (id ct : String) (hour views likes comments shares : ℕ) (cr : ℚ) : VideoRecord :=
  { video_id := id
    upload_time := { year := 2024, month := 1, day := 10, hour := hour, minute := 0, second := 0 }
    content_type := ct
    duration_sec := 120
    views := views
    likes := likes
    comments := comments
    shares := shares
    completion_rate := cr
    creator_id := "C2001" }

/-- views 30000, engagement 10.0 — a hot record. -/
def sampleA : VideoRecord := mkVR "V1" "美食制作" 19 30000 3000 0 0 (1/2)

/-- views 10000, engagement 2.0 — not hot. -/
def sampleB : VideoRecord := mkVR "V2" "知识科普" 9 10000 200 0 0 (3/5)

/-- views 20000, engagement 6.0 — not hot (views at the boundary). -/
def sampleC : VideoRecord := mkVR "V3" "知识科普" 13 20000 1200 0 0 (7/10)

/-- A three-record derived dataset used as concrete witness input. -/
def wdf : List DerivedRecord := derive_table [sampleA, sampleB, sampleC]

/-- A table held by the engine after a prior successful load. -/
def loadedTable : List VideoRecord := [sampleA]

/-- An engine in the Loaded state. -/
def e0 : Engine :=
  { data_path := "data/sample_data.csv", df := some (.parsed loadedTable) }

/-- A CSV row whose upload_time cell cannot be parsed as a timestamp. -/
def badRaw : RawRecord :=
  { video_id := "V9", upload_time := "not a timestamp", content_type := "生活娱乐",
    duration_sec := 120, views := 1000, likes := 10, comments := 1, shares := 1,
    completion_rate := 1/2, creator_id := "C2002" }

/-- Three records with engagement rates 0.33, 0.33, 0.34, whose mean 1/3 is
not representable in 2 decimal places. -/
def c2df : List DerivedRecord :=
  derive_table [mkVR "V1" "搞笑段子" 9 10000 33 0 0 (1/2),
    mkVR "V2" "搞笑段子" 9 10000 33 0 0 (1/2),
    mkVR "V3" "搞笑段子" 9 10000 34 0 0 (1/2)]

/-- Two records uploaded at hour 19: rates 10 (hot: views 30000) and 2
(views 10000) — per-group mean views 20000, mean engagement 6, one hot
record. -/
def c3df1 : List DerivedRecord :=
  derive_table [mkVR "V1" "健身教学" 19 30000 3000 0 0 (1/2),
    mkVR "V2" "健身教学" 19 10000 200 0 0 (1/2)]

/-- Two records uploaded at hour 19: rates 2 (views 30000) and 10
(views 10000) — the same mean views 20000 and mean engagement 6, but zero
hot records. -/
def c3df2 : List DerivedRecord :=
  derive_table [mkVR "V1" "健身教学" 19 30000 600 0 0 (1/2),
    mkVR "V2" "健身教学" 19 10000 1000 0 0 (1/2)]

/-- The single aggregate row both c3df1 and c3df2 produce. -/
def c3row : TimeStat :=
  { time_period := "晚上 (18-22)", views := 20000, engagement_rate := .num 6, video_count := 2 }

/-- A record with views = 0 and a positive interaction count. -/
def c4rec : VideoRecord := mkVR "V0" "游戏解说" 3 0 5 0 0 (1/2)

/-- Engagement exactly 5.00 with large views: 2000/40000*100 = 5. -/
def recA : VideoRecord := mkVR "B1" "旅行摄影" 10 40000 2000 0 0 (1/2)

/-- Views exactly 20000 with engagement 6.00. -/
def recB : VideoRecord := mkVR "B2" "旅行摄影" 10 20000 1200 0 0 (1/2)

/-- Views 20001 with engagement rounding to 5.01. -/
def recC : VideoRecord := mkVR "B3" "旅行摄影" 10 20001 1003 0 0 (1/2)

/-- A finite value is not NaN. -/
theorem PyFloat.isNan_eq_false_of_isNum {x : PyFloat} (h : x.isNum = true) :
    x.isNan = false := by
  cases x <;> simp_all [PyFloat.isNum, PyFloat.isNan]

/-- Strict comparison is asymmetric. -/
theorem PyFloat.gtF_asymm {a b : PyFloat} (h : PyFloat.gtF a b = true) :
    PyFloat.gtF b a = false := by
  cases a <;> cases b <;> simp_all [PyFloat.gtF]
  exact le_of_lt h

/-- Strictly compared values are distinct. -/
theorem PyFloat.ne_of_gtF {a b : PyFloat} (h : PyFloat.gtF a b = true) : a ≠ b :=
  match a, b, h with
  | .num p, .num q, h => by
    simp [PyFloat.gtF] at h
    exact fun hc => absurd (PyFloat.num.inj hc) (ne_of_gt h)
  | .inf, .num _, _ => by simp

/-- Transitivity of the non-strict comparison through a non-NaN middle
value. -/
theorem PyFloat.gtF_false_trans {a b c : PyFloat} (hb : b.isNan = false)
    (h1 : PyFloat.gtF a b = false) (h2 : PyFloat.gtF b c = false) :
    PyFloat.gtF a c = false := by
  cases a <;> cases b <;> cases c <;>
    simp_all [PyFloat.gtF, PyFloat.isNan] <;> linarith

/-- Membership in an insertion. -/
theorem mem_insertDesc {α : Type} (key : α → PyFloat) (x : α) (l : List α) (a : α) :
    a ∈ insertDesc key x l ↔ a = x ∨ a ∈ l := by
  induction l with
  | nil => simp [insertDesc]
  | cons y ys ih =>
    by_cases h : (key y).gtF (key x) = true
    · simp only [insertDesc, if_pos h, List.mem_cons, ih]
      tauto
    · simp only [insertDesc, if_neg h, List.mem_cons]

/-- Insertion is a permutation of consing. -/
theorem insertDesc_perm {α : Type} (key : α → PyFloat) (x : α) (l : List α) :
    (insertDesc key x l).Perm (x :: l) := by
  induction l with
  | nil => simp [insertDesc]
  | cons y ys ih =>
    by_cases h : (key y).gtF (key x) = true
    · simpa [insertDesc, h] using (ih.cons y).trans (List.Perm.swap x y ys)
    · simp [insertDesc, h]

/-- The stable descending insertion sort permutes its input. -/
theorem insertSortDesc_perm {α : Type} (key : α → PyFloat) (l : List α) :
    (insertSortDesc key l).Perm l := by
  induction l with
  | nil => simp [insertSortDesc]
  | cons x xs ih =>
    exact (insertDesc_perm key x (insertSortDesc key xs)).trans (ih.cons x)

/-- Inserting into a descending-sorted list of non-NaN keys keeps it
descending-sorted (consecutive rows never strictly increase in key). -/
theorem pairwise_insertDesc {α : Type} (key : α → PyFloat) (x : α) (l : List α)
    (hl : ∀ a ∈ l, (key a).isNan = false)
    (h : l.Pairwise (fun a b => (key b).gtF (key a) = false)) :
    (insertDesc key x l).Pairwise (fun a b => (key b).gtF (key a) = false) := by
  induction l with
  | nil => simp [insertDesc]
  | cons y ys ih =>
    rw [List.pairwise_cons] at h
    by_cases hc : (key y).gtF (key x) = true
    · rw [insertDesc, if_pos hc, List.pairwise_cons]
      refine ⟨fun b hb => ?_, ih (fun a ha => hl a (List.mem_cons_of_mem y ha)) h.2⟩
      rcases (mem_insertDesc key x ys b).mp hb with hb | hb
      · rw [hb]
        exact PyFloat.gtF_asymm hc
      · exact h.1 b hb
    · rw [insertDesc, if_neg hc, List.pairwise_cons]
      rw [Bool.not_eq_true] at hc
      refine ⟨fun b hb => ?_, List.pairwise_cons.mpr h⟩
      rcases List.mem_cons.mp hb with hb | hb
      · rw [hb]
        exact hc
      · exact PyFloat.gtF_false_trans (hl y (List.mem_cons_self y ys)) (h.1 b hb) hc

/-- The stable descending insertion sort of rows with non-NaN keys is
descending-sorted. -/
theorem pairwise_insertSortDesc {α : Type} (key : α → PyFloat) (l : List α)
    (hl : ∀ a ∈ l, (key a).isNan = false) :
    (insertSortDesc key l).Pairwise (fun a b => (key b).gtF (key a) = false) := by
  induction l with
  | nil => simp [insertSortDesc]
  | cons x xs ih =>
    have hxs : ∀ a ∈ xs, (key a).isNan = false :=
      fun a ha => hl a (List.mem_cons_of_mem x ha)
    have hmem : ∀ a ∈ insertSortDesc key xs, (key a).isNan = false :=
      fun a ha => hxs a ((insertSortDesc_perm key xs).mem_iff.mp ha)
    exact pairwise_insertDesc key x (insertSortDesc key xs) hmem (ih hxs)

/-- Inserting a row whose key equals v puts it in front of the other rows of
key v: every row the insertion walks past has a strictly greater key. -/
theorem insertDesc_filter_pos {α : Type} (key : α → PyFloat) (x : α) (l : List α)
    (v : PyFloat) (hx : key x = v) :
    (insertDesc key x l).filter (fun a => decide (key a = v)) =
      x :: l.filter (fun a => decide (key a = v)) := by
  induction l with
  | nil => simp [insertDesc, hx]
  | cons y ys ih =>
    by_cases hc : (key y).gtF (key x) = true
    · have hy : ¬ key y = v := by
        rw [← hx]
        exact PyFloat.ne_of_gtF hc
      rw [insertDesc, if_pos hc, List.filter_cons, if_neg (by simpa using hy), ih,
        List.filter_cons, if_neg (by simpa using hy)]
    · rw [insertDesc, if_neg hc, List.filter_cons, if_pos (by simpa using hx)]

/-- Inserting a row whose key differs from v leaves the key-v rows unchanged. -/
theorem insertDesc_filter_neg {α : Type} (key : α → PyFloat) (x : α) (l : List α)
    (v : PyFloat) (hx : ¬ key x = v) :
    (insertDesc key x l).filter (fun a => decide (key a = v)) =
      l.filter (fun a => decide (key a = v)) := by
  induction l with
  | nil => simp [insertDesc, hx]
  | cons y ys ih =>
    by_cases hc : (key y).gtF (key x) = true
    · rw [insertDesc, if_pos hc, List.filter_cons, List.filter_cons]
      by_cases hy : key y = v
      · rw [if_pos (by simpa using hy), if_pos (by simpa using hy), ih]
      · rw [if_neg (by simpa using hy), if_neg (by simpa using hy), ih]
    · rw [insertDesc, if_neg hc, List.filter_cons, if_neg (by simpa using hx)]

/-- Stability of the descending insertion sort: within each key value, rows
appear in their original order. -/
theorem insertSortDesc_filter {α : Type} (key : α → PyFloat) (l : List α)
    (v : PyFloat) :
    (insertSortDesc key l).filter (fun a => decide (key a = v)) =
      l.filter (fun a => decide (key a = v)) := by
  induction l with
  | nil => simp [insertSortDesc]
  | cons x xs ih =>
    by_cases hx : key x = v
    · rw [insertSortDesc, insertDesc_filter_pos key x _ v hx, ih, List.filter_cons,
        if_pos (by simpa using hx)]
    · rw [insertSortDesc, insertDesc_filter_neg key x _ v hx, ih, List.filter_cons,
        if_neg (by simpa using hx)]

/-- Membership in the key insertion. -/
theorem insertKeyAsc_perm (x : String) (l : List String) :
    (insertKeyAsc x l).Perm (x :: l) := by
  induction l with
  | nil => simp [insertKeyAsc]
  | cons y ys ih =>
    by_cases h : y < x
    · simpa [insertKeyAsc, h] using (ih.cons y).trans (List.Perm.swap x y ys)
    · simp [insertKeyAsc, h]

/-- The ascending key sort permutes its input. -/
theorem sortKeysAsc_perm (l : List String) : (sortKeysAsc l).Perm l := by
  induction l with
  | nil => simp [sortKeysAsc]
  | cons x xs ih =>
    exact (insertKeyAsc_perm x (sortKeysAsc xs)).trans (ih.cons x)

/-- A key of a groupby comes from some row of the dataframe. -/
theorem exists_of_mem_group_keys (df : List DerivedRecord)
    (key : DerivedRecord → String) (k : String) (hk : k ∈ group_keys df key) :
    ∃ d ∈ df, key d = k := by
  have : k ∈ (df.map key).dedup := (sortKeysAsc_perm _).mem_iff.mp hk
  rw [List.mem_dedup, List.mem_map] at this
  exact this

/-- Every groupby group is nonempty. -/
theorem group_filter_ne_nil (df : List DerivedRecord)
    (key : DerivedRecord → String) (k : String) (hk : k ∈ group_keys df key) :
    df.filter (fun d => decide (key d = k)) ≠ [] := by
  obtain ⟨d, hd, hdk⟩ := exists_of_mem_group_keys df key k hk
  exact List.ne_nil_of_mem (List.mem_filter.mpr ⟨hd, by simpa using hdk⟩)

/-- pandas mean of a nonempty series of finite values is the finite
arithmetic mean. -/
theorem pymean_all_num (l : List PyFloat) (hne : l ≠ [])
    (h : ∀ x ∈ l, x.isNum = true) :
    pymean l = .num ((l.map PyFloat.numVal).sum / (l.length : ℚ)) := by
  have hfil : l.filter (fun x => !x.isNan) = l := by
    rw [List.filter_eq_self]
    intro a ha
    simp [PyFloat.isNan_eq_false_of_isNum (h a ha)]
  rw [pymean]
  simp only [hfil]
  rw [if_neg (by simpa [List.isEmpty_iff] using hne), if_neg ?_]
  simp only [List.any_eq_true, decide_eq_true_eq, not_exists]
  intro x hx
  have := h x hx.1
  rw [hx.2] at this
  simp [PyFloat.isNum] at this

/-- Rows of the sorted output come from the input. -/
theorem mem_of_mem_sort_values_desc {α : Type} (key : α → PyFloat) (l : List α)
    (a : α) (h : a ∈ sort_values_desc key l) : a ∈ l := by
  rw [sort_values_desc, List.mem_append] at h
  rcases h with h | h
  · exact (List.mem_filter.mp ((insertSortDesc_perm key _).mem_iff.mp h)).1
  · exact (List.mem_filter.mp h).1


/-- Claim C1 counterexample.  The claim requires that after a failed load the
engine is back in the Unloaded state with no data served to queries.  In the
code, a read error (missing file) leaves `self.df` exactly as it was: after a
prior successful load of loadedTable, load_data returns False yet the engine
still holds the parsed table, and calculate_metrics still returns the derived
records of the prior load — a nonempty dataset, not an Unloaded failure. -/
theorem C1_counterexample :
    (load_data e0 (.ioError "FileNotFoundError")).2 = false ∧
    (load_data e0 (.ioError "FileNotFoundError")).1.df = some (.parsed loadedTable) ∧
    calculate_metrics (load_data e0 (.ioError "FileNotFoundError")).1 =
      .val (some (derive_table loadedTable)) ∧
    derive_table loadedTable ≠ [] := by
  refine ⟨rfl, rfl, rfl, ?_⟩
  decide

/-- Claim C1 (amended): every failed load returns False, but the engine is
not reset to Unloaded: an I/O (read) error leaves the stored dataset exactly
as it was — so queries keep serving data from a prior successful load —
while a timestamp-parse error overwrites the stored dataset with the raw
just-read table (partial state is retained). -/
theorem C1_load_failure_state (e : Engine) (msg : String) (t : List RawRecord) :
    load_data e (.ioError msg) = (e, false) ∧
    (parse_times t = none →
      load_data e (.table t) = ({ e with df := some (.raw t) }, false)) := by
  refine ⟨rfl, fun h => ?_⟩
  rw [load_data, h]

/-- Witness for C1: the amended behaviour at the concrete Loaded engine e0,
for a missing file and for a table with an unparseable timestamp. -/
theorem C1_load_failure_state_witness :
    parse_times [badRaw] = none ∧
    load_data e0 (.ioError "FileNotFoundError") = (e0, false) ∧
    load_data e0 (.table [badRaw]) = ({ e0 with df := some (.raw [badRaw]) }, false) := by
  have hp : parse_times [badRaw] = none := by decide
  exact ⟨hp, (C1_load_failure_state e0 "FileNotFoundError" [badRaw]).1,
    (C1_load_failure_state e0 "FileNotFoundError" [badRaw]).2 hp⟩

/-- Claim C2 counterexample.  The claim says summarize returns the mean
engagement_rate rounded to 2 decimal places.  On c2df (per-record rates 0.33,
0.33, 0.34) the source returns the exact mean 1/3, which differs from its
2-decimal rounding 0.33: the source applies no rounding to this field. -/
theorem C2_counterexample :
    (get_summary_metrics c2df).avg_engagement_rate = .num (1/3) ∧
    (get_summary_metrics c2df).avg_engagement_rate ≠ .num (round2 (1/3)) := by
  constructor
  · decide
  · decide

/-- Claim C2 (amended): for a nonempty dataset of finite rates, summarize
returns exactly five fields: the record count, the views sum, the UNROUNDED
arithmetic mean of the per-record engagement rates (each of which was already
rounded to 2 decimals when derived), the is_hot count, and
hot_count/total_count*100 rounded to 2 decimals. -/
theorem C2_summary_fields (df : List DerivedRecord) (hne : df ≠ [])
    (h : ∀ d ∈ df, d.engagement_rate.isNum = true) :
    get_summary_metrics df =
      { total_videos := df.length
        total_views := (df.map (fun d => d.views)).sum
        avg_engagement_rate :=
          .num ((df.map (fun d => d.engagement_rate.numVal)).sum / (df.length : ℚ))
        hot_videos_count := df.countP (fun d => d.is_hot)
        hot_videos_rate :=
          .num (round2 ((df.countP (fun d => d.is_hot) : ℚ) / (df.length : ℚ) * 100)) } := by
  rw [get_summary_metrics]
  have hm : pymean (df.map (fun d => d.engagement_rate)) =
      .num ((df.map (fun d => d.engagement_rate.numVal)).sum / (df.length : ℚ)) := by
    rw [pymean_all_num _ (by simpa [ne_eq, List.map_eq_nil_iff] using hne)
      (fun x hx => by
        obtain ⟨d, hd, rfl⟩ := List.mem_map.mp hx
        exact h d hd)]
    rw [List.map_map, List.length_map]
    rfl
  rw [hm, if_neg (by simpa [List.length_eq_zero] using hne)]

/-- Witness for C2 (amended) at the concrete dataset wdf (rates 10, 2, 6;
one hot record out of three). -/
theorem C2_summary_fields_witness :
    get_summary_metrics wdf =
      { total_videos := wdf.length
        total_views := (wdf.map (fun d => d.views)).sum
        avg_engagement_rate :=
          .num ((wdf.map (fun d => d.engagement_rate.numVal)).sum / (wdf.length : ℚ))
        hot_videos_count := wdf.countP (fun d => d.is_hot)
        hot_videos_rate :=
          .num (round2 ((wdf.countP (fun d => d.is_hot) : ℚ) / (wdf.length : ℚ) * 100)) } :=
  C2_summary_fields wdf (by decide) (by decide)

/-- Claim C3 counterexample.  The claim says groupByTimePeriod produces the
same aggregation shape as groupByContentType, including the per-group hot
count and hot_rate.  The source aggregates only mean views, mean engagement
and count for time periods: the datasets c3df1 and c3df2 produce identical
time-period analyses while their hot counts differ (1 vs 0), so the
time-period output neither contains nor even determines the hot aggregates. -/
theorem C3_counterexample :
    get_time_period_analysis c3df1 = get_time_period_analysis c3df2 ∧
    c3df1.countP (fun d => d.is_hot) = 1 ∧
    c3df2.countP (fun d => d.is_hot) = 0 := by
  refine ⟨?_, ?_, ?_⟩ <;> decide

/-- Claim C3 (amended): every row of the time-period analysis carries exactly
the three aggregates of its group — mean views rounded to 2 decimals, mean
engagement_rate rounded to 2 decimals, and the record count — computed over
the (nonempty) set of records of its time_period; there is no hot count and
no hot_rate in this analysis. -/
theorem C3_time_rows_shape (df : List DerivedRecord) (row : TimeStat)
    (hrow : row ∈ get_time_period_analysis df) :
    time_group df row.time_period ≠ [] ∧
    row.views = round2 (((time_group df row.time_period).map (fun d => (d.views : ℚ))).sum /
      ((time_group df row.time_period).length : ℚ)) ∧
    row.engagement_rate =
      (pymean ((time_group df row.time_period).map (fun d => d.engagement_rate))).round2F ∧
    row.video_count = (time_group df row.time_period).length := by
  have hmem : row ∈ time_rows df :=
    mem_of_mem_sort_values_desc _ _ row hrow
  rw [time_rows, List.mem_map] at hmem
  obtain ⟨k, hk, rfl⟩ := hmem
  exact ⟨group_filter_ne_nil df _ k hk, rfl, rfl, rfl⟩

/-- Witness for C3 (amended): the concrete output row of c3df1. -/
theorem C3_time_rows_shape_witness :
    c3row ∈ get_time_period_analysis c3df1 ∧
    c3row.views = round2 (((time_group c3df1 c3row.time_period).map (fun d => (d.views : ℚ))).sum /
      ((time_group c3df1 c3row.time_period).length : ℚ)) ∧
    c3row.engagement_rate =
      (pymean ((time_group c3df1 c3row.time_period).map (fun d => d.engagement_rate))).round2F ∧
    c3row.video_count = (time_group c3df1 c3row.time_period).length := by
  have hm : c3row ∈ get_time_period_analysis c3df1 := by decide
  have h := C3_time_rows_shape c3df1 c3row hm
  exact ⟨hm, h.2.1, h.2.2.1, h.2.2.2⟩

/-- Claim C4 counterexample.  The claim says the views = 0 and
total_count = 0 divisions are explicitly zero-guarded (yielding 0 or a
skipped record).  In the source neither is guarded: on c4rec (views = 0,
5 likes) the engagement division is reached and produces infinity — not 0,
and the record is not skipped — and summarize of an empty dataset reaches
the 0/0 hot-rate division, producing NaN. -/
theorem C4_counterexample :
    (derive_record c4rec).engagement_rate = .inf ∧
    (derive_record c4rec).engagement_rate ≠ .num 0 ∧
    derive_table [c4rec] = [derive_record c4rec] ∧
    (get_summary_metrics []).hot_videos_rate = .nan := by
  refine ⟨?_, ?_, rfl, rfl⟩ <;> decide

/-- Claim C4 (amended): no division in the engine is zero-guarded, but none
raises either.  A record with views = 0 is kept, its engagement_rate is
non-finite (NaN when the interaction sum is 0, +inf otherwise), and it is
never hot; summarize on an empty dataset returns NaN for both the mean
engagement rate and the hot rate. -/
theorem C4_division_by_zero (r : VideoRecord) (h : r.views = 0) :
    (derive_record r).engagement_rate =
      (if (r.likes : ℚ) + (r.comments : ℚ) + (r.shares : ℚ) = 0
        then PyFloat.nan else PyFloat.inf) ∧
    (derive_record r).is_hot = false ∧
    (get_summary_metrics []).avg_engagement_rate = PyFloat.nan ∧
    (get_summary_metrics []).hot_videos_rate = PyFloat.nan := by
  refine ⟨?_, ?_, rfl, rfl⟩
  · by_cases hz : (r.likes : ℚ) + (r.comments : ℚ) + (r.shares : ℚ) = 0 <;>
      simp [derive_record, pyDiv, h, hz, PyFloat.mulQ, PyFloat.round2F]
  · simp [derive_record, h]

/-- Witness for C4 (amended) at the concrete record c4rec. -/
theorem C4_division_by_zero_witness :
    c4rec.views = 0 ∧
    (derive_record c4rec).engagement_rate =
      (if (c4rec.likes : ℚ) + (c4rec.comments : ℚ) + (c4rec.shares : ℚ) = 0
        then PyFloat.nan else PyFloat.inf) ∧
    (derive_record c4rec).is_hot = false ∧
    (get_summary_metrics []).avg_engagement_rate = PyFloat.nan ∧
    (get_summary_metrics []).hot_videos_rate = PyFloat.nan := by
  have h0 : c4rec.views = 0 := rfl
  have h := C4_division_by_zero c4rec h0
  exact ⟨h0, h.1, h.2.1, h.2.2.1, h.2.2.2⟩

/-- Claim C6: a derived record is hot exactly when its (rounded)
engagement_rate exceeds 5 and its views exceed 20000, both strictly — the
comparison `gtQ` is IEEE `>` against the finite threshold.  The boundary
records pin the strictness: recA has engagement exactly 5.00 (not hot despite
40000 views), recB has views exactly 20000 (not hot despite engagement 6.00),
and recC (views 20001, engagement 5.01) is hot. -/
theorem C6_is_hot_strict :
    (∀ r : VideoRecord, (derive_record r).is_hot = true ↔
      ((derive_record r).engagement_rate.gtQ 5 = true ∧ 20000 < r.views)) ∧
    (derive_record recA).engagement_rate = .num 5 ∧
    (derive_record recA).is_hot = false ∧
    (derive_record recB).engagement_rate = .num 6 ∧
    recB.views = 20000 ∧
    (derive_record recB).is_hot = false ∧
    (derive_record recC).engagement_rate = .num (501/100) ∧
    recC.views = 20001 ∧
    (derive_record recC).is_hot = true := by
  refine ⟨fun r => ?_, ?_, ?_, ?_, ?_, ?_, ?_, ?_, ?_⟩
  · simp [derive_record, Bool.and_eq_true, decide_eq_true_eq]
  all_goals decide

/-- Claim C7: on the 24 valid hours the bucketing function realises exactly
the claimed half-open ranges, so the five labels partition the day: each hour
satisfies exactly one of the five range conditions and is mapped to the
corresponding label ('早晨'=Morning, '中午'=Midday, '下午'=Afternoon,
'晚上'=Evening, '深夜'=Late Night). -/
theorem C7_time_period_partition (h : ℕ) (hh : h ≤ 23) :
    (categorize_time_period h = "早晨 (6-12)" ↔ 6 ≤ h ∧ h < 12) ∧
    (categorize_time_period h = "中午 (12-14)" ↔ 12 ≤ h ∧ h < 14) ∧
    (categorize_time_period h = "下午 (14-18)" ↔ 14 ≤ h ∧ h < 18) ∧
    (categorize_time_period h = "晚上 (18-22)" ↔ 18 ≤ h ∧ h < 22) ∧
    (categorize_time_period h = "深夜 (22-6)" ↔ (h < 6 ∨ 22 ≤ h)) := by
  interval_cases h <;> refine ⟨?_, ?_, ?_, ?_, ?_⟩ <;> decide

/-- Witness for C7 at hour 9 (a Morning hour). -/
theorem C7_time_period_partition_witness :
    (categorize_time_period 9 = "早晨 (6-12)" ↔ 6 ≤ 9 ∧ 9 < 12) ∧
    (categorize_time_period 9 = "中午 (12-14)" ↔ 12 ≤ 9 ∧ 9 < 14) ∧
    (categorize_time_period 9 = "下午 (14-18)" ↔ 14 ≤ 9 ∧ 9 < 18) ∧
    (categorize_time_period 9 = "晚上 (18-22)" ↔ 18 ≤ 9 ∧ 9 < 22) ∧
    (categorize_time_period 9 = "深夜 (22-6)" ↔ (9 < 6 ∨ 22 ≤ 9)) :=
  C7_time_period_partition 9 (by decide)

/-- Claim C8: for every dataset (of finite composite scores) and every n,
the ranking is the n-prefix of the stable descending sort by composite
score: it has exactly min n (number of records) rows, is sorted descending
by composite score, ties keep original record order, and when n is at least
the dataset size it returns all records (a permutation of the dataset).
The source's call fixes n = 10 through pandas nlargest: top_videos is
rank_videos at 10 followed by display-column selection. -/
theorem C8_rank_topn (df : List DerivedRecord) (n : ℕ)
    (h : ∀ d ∈ df, (composite_score d).isNan = false) :
    (rank_videos df n).length = min n df.length ∧
    rank_videos df n = (insertSortDesc (fun d => composite_score d) df).take n ∧
    (rank_videos df n).Pairwise
      (fun a b => (composite_score b).gtF (composite_score a) = false) ∧
    (∀ v, (insertSortDesc (fun d => composite_score d) df).filter
        (fun d => decide (composite_score d = v)) =
      df.filter (fun d => decide (composite_score d = v))) ∧
    (df.length ≤ n → (rank_videos df n).Perm df) ∧
    top_videos df = (rank_videos df 10).map rank_row := by
  have hfil : df.filter (fun d => !(composite_score d).isNan) = df :=
    List.filter_eq_self.mpr (fun d hd => by simp [h d hd])
  have heq : rank_videos df n = (insertSortDesc (fun d => composite_score d) df).take n := by
    rw [rank_videos, nlargest, hfil]
  have hsorted := pairwise_insertSortDesc (fun d => composite_score d) df h
  refine ⟨?_, heq, ?_, fun v => insertSortDesc_filter _ _ v, fun hn => ?_, rfl⟩
  · rw [heq, List.length_take,
      (insertSortDesc_perm (fun d => composite_score d) df).length_eq]
  · rw [heq]
    exact hsorted.sublist (List.take_sublist n _)
  · rw [heq, List.take_of_length_le
      (by rw [(insertSortDesc_perm (fun d => composite_score d) df).length_eq]; exact hn)]
    exact insertSortDesc_perm _ df

/-- Witness for C8 at the concrete dataset wdf with n = 5 > 3 records, with
the stability equation instantiated at the composite score of sampleA. -/
theorem C8_rank_topn_witness :
    (rank_videos wdf 5).length = min 5 wdf.length ∧
    rank_videos wdf 5 = (insertSortDesc (fun d => composite_score d) wdf).take 5 ∧
    (rank_videos wdf 5).Pairwise
      (fun a b => (composite_score b).gtF (composite_score a) = false) ∧
    (insertSortDesc (fun d => composite_score d) wdf).filter
        (fun d => decide (composite_score d = composite_score (derive_record sampleA))) =
      wdf.filter (fun d => decide (composite_score d = composite_score (derive_record sampleA))) ∧
    (wdf.length ≤ 5 → (rank_videos wdf 5).Perm wdf) ∧
    top_videos wdf = (rank_videos wdf 10).map rank_row := by
  have h := C8_rank_topn wdf 5 (by decide)
  exact ⟨h.1, h.2.1, h.2.2.1, h.2.2.2.1 (composite_score (derive_record sampleA)),
    h.2.2.2.2.1, h.2.2.2.2.2⟩

/-- Claim C9: calculate_metrics is a pure, deterministic query of the loaded
dataset: viewed as a state transformer it leaves the engine unchanged, and a
second call made after the first returns the identical result (so the same
loaded dataset always yields the same derived sequence, within a run or
across runs). -/
theorem C9_calc_metrics_deterministic : ∀ e : Engine,
    (calc_metrics_step e).1 = e ∧
    (calc_metrics_step ((calc_metrics_step e).1)).2 = (calc_metrics_step e).2 :=
  fun _ => ⟨rfl, rfl⟩

/-- Claim C10: no query operation mutates the engine's stored dataset: any
sequence of query calls (calculate_metrics on its copy, the three read-only
aggregations, and the ranking on its copy) leaves the engine — in particular
self.df — exactly as it was after load. -/
theorem C10_queries_preserve_state (e : Engine) (ops : List QueryOp) :
    ops.foldl run_query e = e := by
  induction ops generalizing e with
  | nil => rfl
  | cons op rest ih =>
    rw [List.foldl_cons, show run_query e op = e from by cases op <;> rfl]
    exact ih e
